import Mathlib

/-!
# rancher-turtles: the CAPI import reconciler

A shallow embedding of `internal/controllers/import_controller.go`.

Every call that leaves the process (reads and writes on the primary control
plane, the registry handlers of `internal/rancher`, the HTTP download, the
remote cluster client) is modelled twice over: its answer comes from an
explicit environment value, and the call itself is appended to a list of
`Event`s, so that "no Create was issued" is a statement about that list.
-/

set_option autoImplicit false

namespace Turtles

/-! ## Go values -/

/-- Go `error` values. `wrap` is `fmt.Errorf("msg: %w", inner)`. -/
inductive GoError where
  | notFound (what : String)
  | other (msg : String)
  | wrap (msg : String) (inner : GoError)
  deriving DecidableEq, Repr

deriving instance DecidableEq for Except

/-- The `apierrors.IsNotFound` test: it looks through `%w` wrapping. -/
def IsNotFound : GoError → Bool
  | .notFound _ => true
  | .other _ => false
  | .wrap _ e => IsNotFound e

/-- The `client.ObjectKey` pair (`types.NamespacedName`). -/
structure ObjectKey where
  Namespace : String
  Name : String
  deriving DecidableEq, Repr

/-- The part of `metav1.ObjectMeta` the controller reads. A Go
`map[string]string` is an association list read with `List.lookup`; the nil
map and the empty map are both `[]`. -/
structure ObjectMeta where
  Name : String
  Namespace : String
  Annotations : List (String × String)
  DeletionTimestamp : Option Nat
  deriving DecidableEq, Repr

/-- The test `DeletionTimestamp.IsZero()`: nil, or the zero time. -/
def ObjectMeta.deletionIsZero (m : ObjectMeta) : Bool :=
  match m.DeletionTimestamp with
  | none => true
  | some t => t == 0

/-- The `clusterv1.Cluster` fields the controller reads. -/
structure CAPICluster where
  ObjectMeta : ObjectMeta
  ControlPlaneReady : Bool
  deriving DecidableEq, Repr

/-- The `corev1.Namespace` fields the controller reads. A namespace is
cluster-scoped: its name is `ObjectMeta.Name`. -/
structure CoreNamespace where
  ObjectMeta : ObjectMeta
  deriving DecidableEq, Repr

/-- The `rancher.Cluster` record of the registry. -/
structure RancherCluster where
  Name : String
  Namespace : String
  ClusterName : String
  AgentDeployed : Bool
  deriving DecidableEq, Repr

/-- The `rancher.ClusterRegistrationToken` record. -/
structure ClusterRegistrationToken where
  ManifestURL : String
  deriving DecidableEq, Repr

/-- The `ctrl.Result` value; `RequeueAfter` is in seconds. -/
structure Result where
  Requeue : Bool
  RequeueAfter : Nat
  deriving DecidableEq, Repr

/-- The zero value `ctrl.Result{}`. -/
def Result.empty : Result := ⟨false, 0⟩

def importAnnotationName : String := "rancher-auto-import"

/-- One minute, in seconds. -/
def defaultRequeueDuration : Nat := 60

def clusterRegistrationTokenName : String := "default-token"

/-- The `schema.GroupVersionKind` triple. -/
structure GroupVersionKind where
  Group : String
  Version : String
  Kind : String
  deriving DecidableEq, Repr

/-- An `unstructured.Unstructured` object: its identity and the rest of its
content. -/
structure Unstructured where
  gvk : GroupVersionKind
  Namespace : String
  Name : String
  Content : String
  deriving DecidableEq, Repr

/-! ## Calls that leave the process -/

/-- One outgoing call, recorded in the order it is made. -/
inductive Event where
  | clusterGet (key : ObjectKey)
  | namespaceGet (name : String)
  | clusterList (inNamespace : String)
  | rancherGet (key : ObjectKey)
  | rancherCreate (c : RancherCluster)
  | tokenGet (key : ObjectKey)
  | httpGet (url : String)
  | remoteClient (name : String) (key : ObjectKey)
  | remoteGet (gvk : GroupVersionKind) (key : ObjectKey)
  | remoteCreate (obj : Unstructured)
  deriving DecidableEq, Repr

/-- The primary control plane behind `r.Client`: what it stores and which of
its reads fail. -/
structure Client where
  clusters : List CAPICluster
  namespaces : List CoreNamespace
  clusterErr : ObjectKey → Option GoError
  namespaceErr : String → Option GoError
  listErr : String → Option GoError

/-- The call `r.Client.Get(ctx, key, &clusterv1.Cluster{})`. -/
def Client.GetCluster (c : Client) (key : ObjectKey) : Except GoError CAPICluster :=
  match c.clusterErr key with
  | some e => .error e
  | none =>
    match c.clusters.find? (fun x => x.ObjectMeta.Namespace = key.Namespace ∧ x.ObjectMeta.Name = key.Name) with
    | some x => .ok x
    | none => .error (.notFound key.Name)

/-- The call `r.Client.Get(ctx, client.ObjectKey{Name: name}, &corev1.Namespace{})`. -/
def Client.GetNamespace (c : Client) (name : String) : Except GoError CoreNamespace :=
  match c.namespaceErr name with
  | some e => .error e
  | none =>
    match c.namespaces.find? (fun x => x.ObjectMeta.Name = name) with
    | some x => .ok x
    | none => .error (.notFound name)

/-- The call `r.Client.List(ctx, &clusterv1.ClusterList{}, client.InNamespace(ns))`.
In controller-runtime the empty namespace lists across all namespaces. -/
def Client.ListClusters (c : Client) (inNamespace : String) : Except GoError (List CAPICluster) :=
  match c.listErr inNamespace with
  | some e => .error e
  | none =>
    .ok (if inNamespace = "" then c.clusters
         else c.clusters.filter (fun x => x.ObjectMeta.Namespace = inNamespace))

/-- The handlers of `internal/rancher`, as Go `(value, error)` pairs. -/
structure RancherAPI where
  clusterGet : ObjectKey → Option RancherCluster × Option GoError
  clusterCreate : RancherCluster → Option GoError
  tokenGet : ObjectKey → Option ClusterRegistrationToken × Option GoError

/-- What `http.Get` hands back when the transport succeeds: the status code,
and what `io.ReadAll(resp.Body)` will return. -/
structure HttpResponse where
  StatusCode : Nat
  Body : String
  ReadErr : Option GoError
  deriving DecidableEq, Repr

/-- The remote (target) cluster behind the client that `remoteClientGetter`
returns: the objects it stores, and the reads and creates that fail. A failing
read fails with an error other than NotFound: NotFound is what a read of an
absent object answers. -/
structure RemoteClient where
  objects : List Unstructured
  getErr : GroupVersionKind → ObjectKey → Option String
  createErr : Unstructured → Option String

/-- Whether `o` is stored under the identity `(gvk, key)`. -/
def sameIdentity (gvk : GroupVersionKind) (key : ObjectKey) (o : Unstructured) : Bool :=
  o.gvk = gvk ∧ o.Namespace = key.Namespace ∧ o.Name = key.Name

/-- The call `c.Get(ctx, key, u)` with `u` of kind `gvk`. -/
def RemoteClient.Get (c : RemoteClient) (gvk : GroupVersionKind) (key : ObjectKey) :
    Except GoError Unstructured :=
  match c.getErr gvk key with
  | some msg => .error (.other msg)
  | none =>
    match c.objects.find? (sameIdentity gvk key) with
    | some o => .ok o
    | none => .error (.notFound key.Name)

/-- The call `c.Create(ctx, obj)`: the store after it, or the error. -/
def RemoteClient.Create (c : RemoteClient) (obj : Unstructured) : Except GoError RemoteClient :=
  match c.createErr obj with
  | some msg => .error (.other msg)
  | none =>
    if c.objects.any (sameIdentity obj.gvk ⟨obj.Namespace, obj.Name⟩) then
      .error (.other "already exists")
    else .ok { c with objects := c.objects ++ [obj] }

/-! ## Policy -/

/-- Go `strconv.ParseBool`. -/
def ParseBool (s : String) : Except GoError Bool :=
  if s = "1" ∨ s = "t" ∨ s = "T" ∨ s = "TRUE" ∨ s = "true" ∨ s = "True" then .ok true
  else if s = "0" ∨ s = "f" ∨ s = "F" ∨ s = "FALSE" ∨ s = "false" ∨ s = "False" then .ok false
  else .error (.other "strconv.ParseBool: invalid input")

/-- The function `shouldImport`: the pair `(hasLabel, labelValue)`. -/
def shouldImport (obj : ObjectMeta) : Bool × Bool :=
  match obj.Annotations.lookup importAnnotationName with
  | none => (false, false)
  | some labelVal =>
    match ParseBool labelVal with
    | .error _ => (true, false)
    | .ok autoImport => (true, autoImport)

/-- The function `shouldAutoImport`: the answer, the error, and the calls made. -/
def shouldAutoImport (cl : Client) (capiCluster : CAPICluster) : Bool × Option GoError × List Event :=
  let (hasLabel, autoImport) := shouldImport capiCluster.ObjectMeta
  if hasLabel && autoImport then (true, none, [])
  else if hasLabel && !autoImport then (false, none, [])
  else
    match cl.GetNamespace capiCluster.ObjectMeta.Namespace with
    | .error err => (false, some err, [.namespaceGet capiCluster.ObjectMeta.Namespace])
    | .ok ns => ((shouldImport ns.ObjectMeta).2, none, [.namespaceGet capiCluster.ObjectMeta.Namespace])

def rancherClusterNameFromCAPICluster (capiClusterName : String) : String :=
  capiClusterName ++ "-capi"

/-! ## Manifest download and decoding -/

/-- A JSON document, as `yamlDecoder.ToJSON` produces it. An object is a Go
map: its keys are distinct. -/
inductive JSON where
  | null
  | bool (b : Bool)
  | num (n : Int)
  | str (s : String)
  | arr (items : List JSON)
  | obj (fields : List (String × JSON))

/-- What `UnstructuredJSONScheme.Decode` returns: one object, or an
`UnstructuredList` with its `Items`. -/
inductive RuntimeObject where
  | unstructured (u : Unstructured)
  | list (items : List Unstructured)
  deriving DecidableEq, Repr

/-- The decoding libraries the controller calls. `Read` gives the documents
that successive `reader.Read()` calls of the YAML reader return for a manifest
text, and the error other than `io.EOF` that ends them, if any. -/
structure Decoder where
  Read : String → List String × Option GoError
  ToJSON : String → Except GoError JSON
  Decode : JSON → Except GoError RuntimeObject

/-- The call `json.Unmarshal(bytes, &check)` into a `map[string]interface{}`,
followed by `len(check)`: JSON null leaves the map empty without an error, an
object fills it, any other value is an unmarshal type error. -/
def unmarshalCheck : JSON → Except GoError Nat
  | .null => .ok 0
  | .obj fields => .ok fields.length
  | _ => .error (.other "json: cannot unmarshal into Go value of type map")

/-- The function `toObjects`: the objects of one document. -/
def toObjects (d : Decoder) (bytes : String) : Except GoError (List Unstructured) :=
  match d.ToJSON bytes with
  | .error err => .error err
  | .ok json =>
    match unmarshalCheck json with
    | .error err => .error err
    | .ok n =>
      if n = 0 then .ok []
      else
        match d.Decode json with
        | .error err => .error err
        | .ok (.list items) => .ok items
        | .ok (.unstructured obj) => .ok [obj]

/-- The loop of `manifestToObjects` over the documents the reader returns. -/
def manifestLoop (d : Decoder) (readErr : Option GoError) :
    List String → List Unstructured → Except GoError (List Unstructured)
  | [], result =>
    match readErr with
    | none => .ok result
    | some err => .error err
  | raw :: rest, result =>
    match toObjects d raw with
    | .error err => .error err
    | .ok obj => manifestLoop d readErr rest (result ++ obj)

/-- The function `manifestToObjects`. -/
def manifestToObjects (d : Decoder) (manifest : String) : Except GoError (List Unstructured) :=
  manifestLoop d (d.Read manifest).2 (d.Read manifest).1 []

/-- The function `downloadManifest`: the manifest text and the error. -/
def downloadManifest (http : String → Except GoError HttpResponse) (url : String) :
    String × Option GoError :=
  match http url with
  | .error err => ("", some (.wrap "downloading manifest" err))
  | .ok resp =>
    match resp.ReadErr with
    | some err => ("", some (.wrap "reading manifest" err))
    | none => (resp.Body, none)

/-! ## Manifest application -/

/-- What an apply step leaves behind: the remote store, the calls made, and the
error. -/
structure Applied where
  objects : List Unstructured
  events : List Event
  err : Option GoError
  deriving DecidableEq, Repr

/-- The function `createObject`: the remote client after the call, the calls made, the
error. -/
def createObject (c : RemoteClient) (obj : Unstructured) : RemoteClient × List Event × Option GoError :=
  let gvk := obj.gvk
  let key : ObjectKey := ⟨obj.Namespace, obj.Name⟩
  match c.Get gvk key with
  | .ok _ => (c, [.remoteGet gvk key], none)
  | .error err =>
    if !IsNotFound err then
      (c, [.remoteGet gvk key], some (.wrap "getting object from remote cluster" err))
    else
      match c.Create obj with
      | .error err =>
        (c, [.remoteGet gvk key, .remoteCreate obj], some (.wrap "creating object in remote cluster" err))
      | .ok c2 => (c2, [.remoteGet gvk key, .remoteCreate obj], none)

/-- The `for _, obj := range objs` loop of `applyImportManifest`. The
conversion `ToUnstructured` of an object that already is unstructured returns
its content and no error. -/
def applyObjects (c : RemoteClient) : List Unstructured → Applied
  | [] => ⟨c.objects, [], none⟩
  | obj :: rest =>
    match createObject c obj with
    | (c2, evs, some createErr) => ⟨c2.objects, evs, some createErr⟩
    | (c2, evs, none) =>
      let r := applyObjects c2 rest
      ⟨r.objects, evs ++ r.events, r.err⟩

/-- The reconciler: its clients and the libraries it calls. -/
structure CAPIImportReconciler where
  Client : Client
  rancher : RancherAPI
  http : String → Except GoError HttpResponse
  remoteClientGetter : String → ObjectKey → Except GoError RemoteClient
  decoder : Decoder

/-- The function `applyImportManifest`: the calls made and the error. -/
def applyImportManifest (r : CAPIImportReconciler) (capiCluster : CAPICluster) (manifest : String) :
    List Event × Option GoError :=
  let clusterKey : ObjectKey := ⟨capiCluster.ObjectMeta.Namespace, capiCluster.ObjectMeta.Name⟩
  match r.remoteClientGetter capiCluster.ObjectMeta.Name clusterKey with
  | .error err =>
    ([.remoteClient capiCluster.ObjectMeta.Name clusterKey], some (.wrap "getting remote cluster client" err))
  | .ok client =>
    match manifestToObjects r.decoder manifest with
    | .error err =>
      ([.remoteClient capiCluster.ObjectMeta.Name clusterKey], some (.wrap "getting objects from manifest" err))
    | .ok objs =>
      let a := applyObjects client objs
      (.remoteClient capiCluster.ObjectMeta.Name clusterKey :: a.events, a.err)

/-! ## Reconciliation -/

/-- What one reconciliation returns, and the calls it made. -/
structure Outcome where
  res : Result
  err : Option GoError
  events : List Event
  deriving DecidableEq, Repr

/-- The function `getClusterRegistrationManifest`: the manifest text, the error, the calls
made. -/
def getClusterRegistrationManifest (r : CAPIImportReconciler) (clusterName : String) :
    String × Option GoError × List Event :=
  let key : ObjectKey := ⟨clusterName, clusterRegistrationTokenName⟩
  match r.rancher.tokenGet key with
  | (_, some err) =>
    if IsNotFound err then ("", none, [.tokenGet key])
    else ("", some (.wrap ("error getting registration token for cluster " ++ clusterName) err), [.tokenGet key])
  | (none, none) => ("", none, [.tokenGet key])
  | (some token, none) =>
    match downloadManifest r.http token.ManifestURL with
    | (_, some err) => ("", some err, [.tokenGet key, .httpGet token.ManifestURL])
    | (manifestData, none) => (manifestData, none, [.tokenGet key, .httpGet token.ManifestURL])

/-- The function `reconcileDelete`. -/
def reconcileDelete (_r : CAPIImportReconciler) (_capiCluster : CAPICluster) : Outcome :=
  ⟨Result.empty, none, []⟩

/-- The function `reconcileNormal`. -/
def reconcileNormal (r : CAPIImportReconciler) (capiCluster : CAPICluster)
    (rancherCluster : Option RancherCluster) : Outcome :=
  match rancherCluster with
  | none =>
    let (shouldImport, err, evs) := shouldAutoImport r.Client capiCluster
    if err.isSome then ⟨Result.empty, err, evs⟩
    else if !shouldImport then ⟨Result.empty, none, evs⟩
    else
      let record : RancherCluster :=
        { Name := rancherClusterNameFromCAPICluster capiCluster.ObjectMeta.Name
          Namespace := capiCluster.ObjectMeta.Namespace
          ClusterName := ""
          AgentDeployed := false }
      match r.rancher.clusterCreate record with
      | some err =>
        ⟨Result.empty, some (.wrap "error creating rancher cluster" err), evs ++ [.rancherCreate record]⟩
      | none => ⟨⟨true, 0⟩, none, evs ++ [.rancherCreate record]⟩
  | some rancherCluster =>
    if rancherCluster.AgentDeployed then ⟨Result.empty, none, []⟩
    else
      let (manifest, err, evs) := getClusterRegistrationManifest r rancherCluster.ClusterName
      if err.isSome then ⟨Result.empty, err, evs⟩
      else if manifest = "" then ⟨⟨true, 0⟩, none, evs⟩
      else
        match applyImportManifest r capiCluster manifest with
        | (aevs, some _applyErr) => ⟨Result.empty, err, evs ++ aevs⟩
        | (aevs, none) => ⟨Result.empty, none, evs ++ aevs⟩

/-- The function `Reconcile`. -/
def Reconcile (r : CAPIImportReconciler) (req : ObjectKey) : Outcome :=
  match r.Client.GetCluster req with
  | .error err =>
    if IsNotFound err then ⟨⟨true, 0⟩, none, [.clusterGet req]⟩
    else ⟨⟨true, 0⟩, some err, [.clusterGet req]⟩
  | .ok capiCluster =>
    if !capiCluster.ControlPlaneReady then
      ⟨⟨false, defaultRequeueDuration⟩, none, [.clusterGet req]⟩
    else
      let rancherClusterName := rancherClusterNameFromCAPICluster capiCluster.ObjectMeta.Name
      let key : ObjectKey := ⟨capiCluster.ObjectMeta.Namespace, rancherClusterName⟩
      let (rancherCluster, err) := r.rancher.clusterGet key
      let pre : List Event := [.clusterGet req, .rancherGet key]
      if err.any (fun e => !IsNotFound e) then ⟨⟨true, 0⟩, err, pre⟩
      else
        let o :=
          if !capiCluster.ObjectMeta.deletionIsZero then reconcileDelete r capiCluster
          else reconcileNormal r capiCluster rancherCluster
        ⟨o.res, o.err, pre ++ o.events⟩

/-! ## Event mappers -/

/-- A `client.Object` handed to a map function: a namespace, or an object of
another type. -/
inductive ClientObject where
  | nsObject (ns : CoreNamespace)
  | other (m : ObjectMeta)
  deriving DecidableEq, Repr

/-- The method `GetNamespace()` of a `client.Object`: the `metadata.namespace`
field. -/
def ClientObject.GetNamespace : ClientObject → String
  | .nsObject ns => ns.ObjectMeta.Namespace
  | .other m => m.Namespace

/-- The map function returned by `namespaceToCapiClusters`: the reconcile
keys, and the calls made. -/
def namespaceToCapiClusters (cl : Client) (o : ClientObject) : List ObjectKey × List Event :=
  match o with
  | .other _ => ([], [])
  | .nsObject ns =>
    let (_, autoImport) := shouldImport ns.ObjectMeta
    if !autoImport then ([], [])
    else
      match cl.ListClusters o.GetNamespace with
      | .error _ => ([], [.clusterList o.GetNamespace])
      | .ok items =>
        if items.length = 0 then ([], [.clusterList o.GetNamespace])
        else
          (items.map (fun cluster => ⟨cluster.ObjectMeta.Namespace, cluster.ObjectMeta.Name⟩),
            [.clusterList o.GetNamespace])

/-! ## Specification-side readings and sample inputs -/

/-- The parsed boolean of an annotation value, false when the value is not a
valid boolean. -/
def parsedOrFalse (v : String) : Bool :=
  match ParseBool v with
  | .ok b => b
  | .error _ => false

/-- A primary control plane without injected failures. -/
def plainClient (clusters : List CAPICluster) (namespaces : List CoreNamespace) : Client :=
  { clusters := clusters, namespaces := namespaces
    clusterErr := fun _ => none, namespaceErr := fun _ => none, listErr := fun _ => none }

/-- Metadata with a name, a namespace and annotations, not being deleted. -/
def metaOf (ns name : String) (ann : List (String × String)) : ObjectMeta :=
  { Name := name, Namespace := ns, Annotations := ann, DeletionTimestamp := none }

/-- A cluster of namespace `team-a` that opts out by its own annotation. -/
def clusterOptOut : CAPICluster :=
  { ObjectMeta := metaOf "team-a" "c0" [("rancher-auto-import", "false")], ControlPlaneReady := true }

/-- A cluster of namespace `team-a` without annotations. -/
def clusterPlain : CAPICluster :=
  { ObjectMeta := metaOf "team-a" "c1" [], ControlPlaneReady := true }

/-- A cluster of namespace `team-b` without annotations. -/
def clusterOther : CAPICluster :=
  { ObjectMeta := metaOf "team-b" "c2" [], ControlPlaneReady := true }

/-- The namespace object `team-a`, opted in. Like every namespace object it
has an empty `metadata.namespace`. -/
def nsOptIn : CoreNamespace :=
  { ObjectMeta := metaOf "" "team-a" [("rancher-auto-import", "true")] }

/-- The namespace object `team-b`, without annotations. -/
def nsPlain : CoreNamespace :=
  { ObjectMeta := metaOf "" "team-b" [] }

/-- A control plane with two namespaces and three clusters. -/
def sampleClient : Client :=
  plainClient [clusterOptOut, clusterPlain, clusterOther] [nsOptIn, nsPlain]

/-- An event is consistent with the name derivation for cluster `c`: a registry
read or a registry create, if it is one, addresses `c`'s namespace and derived
name. -/
def usesDerivedName (c : CAPICluster) : Event → Bool
  | .rancherGet key =>
    key = ⟨c.ObjectMeta.Namespace, rancherClusterNameFromCAPICluster c.ObjectMeta.Name⟩
  | .rancherCreate rc =>
    rc.Name = rancherClusterNameFromCAPICluster c.ObjectMeta.Name ∧ rc.Namespace = c.ObjectMeta.Namespace
  | _ => true

/-- An event is a call on the registry cluster handler. -/
def Event.onRegistry : Event → Bool
  | .rancherGet _ => true
  | .rancherCreate _ => true
  | _ => false

/-- An event is a call on the remote cluster (a read or a create). -/
def Event.onRemote : Event → Bool
  | .remoteGet _ _ => true
  | .remoteCreate _ => true
  | _ => false

/-- The registry records that a list of calls asks to create, in order. -/
def createdRecords (evs : List Event) : List RancherCluster :=
  evs.filterMap fun ev =>
    match ev with
    | .rancherCreate rc => some rc
    | _ => none

/-- The remote objects that a list of calls asks to create, in order. -/
def createdObjects (evs : List Event) : List Unstructured :=
  evs.filterMap fun ev =>
    match ev with
    | .remoteCreate o => some o
    | _ => none

/-- The registry record `Reconcile` creates for a cluster. -/
def recordFor (c : CAPICluster) : RancherCluster :=
  { Name := rancherClusterNameFromCAPICluster c.ObjectMeta.Name
    Namespace := c.ObjectMeta.Namespace
    ClusterName := ""
    AgentDeployed := false }

def objA : Unstructured := ⟨⟨"", "v1", "Namespace"⟩, "", "cattle-system", "a"⟩

def objB : Unstructured := ⟨⟨"", "v1", "ServiceAccount"⟩, "cattle-system", "cattle", "b"⟩

def objC : Unstructured := ⟨⟨"apps", "v1", "Deployment"⟩, "cattle-system", "cattle-cluster-agent", "c"⟩

/-- A small decoder: the manifest text `three` holds a namespace document, a
blank document and a list document; `one` holds the namespace document. -/
def sampleDecoder : Decoder where
  Read m :=
    if m = "three" then (["a", "", "list"], none)
    else if m = "one" then (["a"], none)
    else ([], some (.other "yaml: read"))
  ToJSON d :=
    if d = "a" then .ok (.obj [("kind", .str "Namespace")])
    else if d = "list" then .ok (.obj [("kind", .str "List"), ("items", .arr [])])
    else if d = "" then .ok .null
    else if d = "empty" then .ok (.obj [])
    else .error (.other "yaml: invalid")
  Decode j :=
    match j with
    | .obj [("kind", .str "Namespace")] => .ok (.unstructured objA)
    | .obj (("kind", .str "List") :: _) => .ok (.list [objB, objC])
    | _ => .error (.other "Object Kind is missing")

/-- A transport: the empty URL has no protocol scheme and fails, as `http.Get`
does; one URL serves the manifest `three`; one URL answers with status 500
and an error page. -/
def sampleHttp (url : String) : Except GoError HttpResponse :=
  if url = "" then .error (.other "unsupported protocol scheme")
  else if url = "https://rancher/import.yaml" then .ok ⟨200, "three", none⟩
  else if url = "https://rancher/broken.yaml" then .ok ⟨500, "Internal Server Error", none⟩
  else .error (.other "dial tcp: connection refused")

/-- A remote cluster that stores `objects` and lets every call through. -/
def plainRemote (objects : List Unstructured) : RemoteClient :=
  { objects := objects, getErr := fun _ _ => none, createErr := fun _ => none }

/-- A remote cluster that stores nothing and refuses every create. -/
def readOnlyRemote : RemoteClient :=
  { objects := [], getErr := fun _ _ => none, createErr := fun _ => some "forbidden" }

/-- A reconciler over `sampleClient` whose registry answers every read with
`record`, every create with `createErr` and every token read with `token`, and
whose remote cluster is `remote`. -/
def sampleReconciler (record : Option RancherCluster × Option GoError) (createErr : Option GoError)
    (token : Option ClusterRegistrationToken × Option GoError) (remote : RemoteClient) :
    CAPIImportReconciler :=
  { Client := sampleClient
    rancher := { clusterGet := fun _ => record, clusterCreate := fun _ => createErr, tokenGet := fun _ => token }
    http := sampleHttp
    remoteClientGetter := fun _ _ => .ok remote
    decoder := sampleDecoder }

/-- The registry record of cluster `c1`, agent not deployed. -/
def recordC1 : RancherCluster :=
  { Name := "c1-capi", Namespace := "team-a", ClusterName := "c-m-abc", AgentDeployed := false }

/-- The remote client `c` over another stored object list. -/
def RemoteClient.withObjects (c : RemoteClient) (objects : List Unstructured) : RemoteClient :=
  { c with objects := objects }

/-- The identity under which the applier reads and creates `o`. -/
def Unstructured.key (o : Unstructured) : ObjectKey := ⟨o.Namespace, o.Name⟩

/-- Whether a document decodes: it converts to JSON, the JSON is null or an
object, and a non-empty object is accepted by the scheme decoder. -/
def documentDecodes (d : Decoder) (raw : String) : Bool :=
  match d.ToJSON raw with
  | .ok .null => true
  | .ok (.obj []) => true
  | .ok (.obj (f :: fs)) =>
    match d.Decode (.obj (f :: fs)) with
    | .ok _ => true
    | .error _ => false
  | _ => false

/-- What a document contributes, in the words of the specification: nothing
when it decodes to null or to an empty map, the members in their order when it
decodes to a list container, the one object otherwise. -/
def documentContribution (d : Decoder) (raw : String) : List Unstructured :=
  match d.ToJSON raw with
  | .ok .null => []
  | .ok (.obj []) => []
  | .ok json =>
    match d.Decode json with
    | .ok (.list items) => items
    | .ok (.unstructured u) => [u]
    | .error _ => []
  | .error _ => []

/-! ## Predicates (`util/predicates/cluster_predicates.go`) -/

/-- A `client.Object` as the predicates read it: its kind, namespace and name
(read for the log line only) and its annotation map, where `none` is the nil
map and `some []` the empty map. -/
structure WatchedObject where
  Kind : String
  Namespace : String
  Name : String
  Annotations : Option (List (String × String))
  deriving DecidableEq, Repr

/-- The `event.CreateEvent` value. -/
structure CreateEvent where
  Object : WatchedObject
  deriving DecidableEq, Repr

/-- The `event.UpdateEvent` value. -/
structure UpdateEvent where
  ObjectOld : WatchedObject
  ObjectNew : WatchedObject
  deriving DecidableEq, Repr

/-- The `event.DeleteEvent` value. -/
structure DeleteEvent where
  Object : WatchedObject
  DeleteStateUnknown : Bool
  deriving DecidableEq, Repr

/-- The `event.GenericEvent` value. -/
structure GenericEvent where
  Object : WatchedObject
  deriving DecidableEq, Repr

/-- The `predicate.Funcs` value: one function per event kind. -/
structure Funcs where
  CreateFunc : CreateEvent → Bool
  DeleteFunc : DeleteEvent → Bool
  UpdateFunc : UpdateEvent → Bool
  GenericFunc : GenericEvent → Bool

/-- Modelled from the spec: `annotations.HasAnnotation` of package
`util/annotations` is not among the sources. It reports whether the annotation
map of the object has an entry for the annotation; a nil map has none. -/
def HasAnnotation (o : WatchedObject) ( annotation : String) : Bool :=
  match o.Annotations with
  | none => false
  | some m => (m.lookup annotation).isSome

/-- The function `processIfClusterNotImported`. The constant
`annotations.ClusterImportedAnnotation` is not among the sources and is the
first argument; the logger calls do not bear on the result. -/
def processIfClusterNotImported ( ClusterImportedAnnotation : String) (obj : WatchedObject) : Bool :=
  if HasAnnotation obj ClusterImportedAnnotation then false
  else true

/-- The function `ClusterWithoutImportedAnnotation`. -/
def ClusterWithoutImportedAnnotation ( ClusterImportedAnnotation : String) : Funcs :=
  { UpdateFunc := fun e => processIfClusterNotImported ClusterImportedAnnotation e.ObjectNew
    CreateFunc := fun e => processIfClusterNotImported ClusterImportedAnnotation e.Object
    DeleteFunc := fun e => processIfClusterNotImported ClusterImportedAnnotation e.Object
    GenericFunc := fun e => processIfClusterNotImported ClusterImportedAnnotation e.Object }

/-- The object contains the annotation: its annotation map is not nil and has
an entry under that key. -/
def containsAnnotation (o : WatchedObject) ( annotation : String) : Prop :=
  ∃ m v, o.Annotations = some m ∧ ( annotation, v) ∈ m

/-- The cluster of the first test: it carries the imported annotation. -/
def testClusterImported ( ClusterImportedAnnotation : String) : WatchedObject :=
  { Kind := "Cluster", Namespace := "test-ns", Name := "test-cluster"
    Annotations := some [( ClusterImportedAnnotation, "true")] }

/-- The cluster of the second test: its annotation map is nil. -/
def testClusterNoAnnotations : WatchedObject :=
  { Kind := "Cluster", Namespace := "test-ns", Name := "test-cluster", Annotations := none }

/-- The cluster of the third test: its annotation map is empty. -/
def testClusterEmptyAnnotations : WatchedObject :=
  { Kind := "Cluster", Namespace := "test-ns", Name := "test-cluster", Annotations := some [] }

/-- A cluster with another annotation only. -/
def testClusterOtherAnnotation : WatchedObject :=
  { Kind := "Cluster", Namespace := "test-ns", Name := "test-cluster"
    Annotations := some [("some-random-annoation", "true")] }

/-! ## Theorems -/

theorem shouldImport_of_lookup_some (m : ObjectMeta) (v : String)
    (h : m.Annotations.lookup importAnnotationName = some v) :
    shouldImport m = (true, parsedOrFalse v) := by
  unfold shouldImport parsedOrFalse
  rw [h]
  dsimp only
  cases hp : ParseBool v <;> rfl

theorem shouldImport_of_lookup_none (m : ObjectMeta)
    (h : m.Annotations.lookup importAnnotationName = none) :
    shouldImport m = (false, false) := by
  unfold shouldImport
  rw [h]

/-- C2. A cluster that carries the rancher-auto-import annotation is decided by
that annotation alone: `shouldAutoImport` returns its parsed boolean (false
when malformed), no error, and makes no call, whatever client and namespace it
is given. A cluster that does not carry it is decided by the namespace that the
client returns: the namespace annotation's parsed boolean, and false when the
namespace does not carry it either; no error in both cases. -/
theorem shouldAutoImport_precedence (cl : Client) (capiCluster : CAPICluster) (ns : CoreNamespace) :
    (∀ v, capiCluster.ObjectMeta.Annotations.lookup importAnnotationName = some v →
      shouldAutoImport cl capiCluster = (parsedOrFalse v, none, [])) ∧
    (capiCluster.ObjectMeta.Annotations.lookup importAnnotationName = none →
      cl.GetNamespace capiCluster.ObjectMeta.Namespace = .ok ns →
      (shouldAutoImport cl capiCluster).2.1 = none ∧
      (∀ w, ns.ObjectMeta.Annotations.lookup importAnnotationName = some w →
        (shouldAutoImport cl capiCluster).1 = parsedOrFalse w) ∧
      (ns.ObjectMeta.Annotations.lookup importAnnotationName = none →
        (shouldAutoImport cl capiCluster).1 = false)) := by
  refine ⟨?_, ?_⟩
  · intro v hv
    unfold shouldAutoImport
    rw [shouldImport_of_lookup_some _ v hv]
    cases parsedOrFalse v <;> simp
  · intro hc hns
    have hs : shouldAutoImport cl capiCluster
        = ((shouldImport ns.ObjectMeta).2, none, [.namespaceGet capiCluster.ObjectMeta.Namespace]) := by
      unfold shouldAutoImport
      rw [shouldImport_of_lookup_none _ hc, hns]
      simp
    rw [hs]
    refine ⟨rfl, ?_, ?_⟩
    · intro w hw
      rw [shouldImport_of_lookup_some _ w hw]
    · intro hn
      rw [shouldImport_of_lookup_none _ hn]

/-- C2 at a sample input: cluster `c0` opts out although its namespace opts in, and
cluster `c1` inherits the opt-in of its namespace. -/
theorem shouldAutoImport_precedence_witness :
    (clusterOptOut.ObjectMeta.Annotations.lookup importAnnotationName = some "false" ∧
      shouldAutoImport sampleClient clusterOptOut = (parsedOrFalse "false", none, [])) ∧
    (clusterPlain.ObjectMeta.Annotations.lookup importAnnotationName = none ∧
      sampleClient.GetNamespace clusterPlain.ObjectMeta.Namespace = .ok nsOptIn ∧
      nsOptIn.ObjectMeta.Annotations.lookup importAnnotationName = some "true" ∧
      (shouldAutoImport sampleClient clusterPlain).2.1 = none ∧
      (shouldAutoImport sampleClient clusterPlain).1 = parsedOrFalse "true") :=
  ⟨⟨by decide, (shouldAutoImport_precedence sampleClient clusterOptOut nsOptIn).1 "false" (by decide)⟩,
    by decide, by decide, by decide,
    ((shouldAutoImport_precedence sampleClient clusterPlain nsOptIn).2 (by decide) (by decide)).1,
    ((shouldAutoImport_precedence sampleClient clusterPlain nsOptIn).2 (by decide) (by decide)).2.1
      "true" (by decide)⟩


theorem rancherClusterName_injective (n m : String)
    (h : rancherClusterNameFromCAPICluster n = rancherClusterNameFromCAPICluster m) : n = m := by
  unfold rancherClusterNameFromCAPICluster at h
  have h2 := congrArg String.data h
  simp only [String.data_append] at h2
  exact String.ext (List.append_cancel_right h2)

theorem createObject_events_onRemote (c : RemoteClient) (obj : Unstructured) :
    ∀ ev ∈ (createObject c obj).2.1, ev.onRemote = true := by
  intro ev hev
  unfold createObject at hev
  cases hg : c.Get obj.gvk ⟨obj.Namespace, obj.Name⟩ with
  | ok u =>
    simp only [hg, List.mem_singleton] at hev
    subst hev; rfl
  | error err =>
    cases hnf : IsNotFound err with
    | false =>
      simp only [hg, hnf, Bool.not_false, if_true, List.mem_singleton] at hev
      subst hev; rfl
    | true =>
      cases hcr : c.Create obj <;>
        simp only [hg, hnf, hcr, Bool.not_true, Bool.false_eq_true, if_false, List.mem_cons,
          List.mem_singleton, List.not_mem_nil, or_false] at hev <;>
        rcases hev with h | h <;> subst h <;> rfl

theorem applyObjects_events_onRemote (objs : List Unstructured) :
    ∀ (c : RemoteClient), ∀ ev ∈ (applyObjects c objs).events, ev.onRemote = true := by
  induction objs with
  | nil => intro c ev hev; simp [applyObjects] at hev
  | cons o rest ih =>
    intro c ev hev
    unfold applyObjects at hev
    have hc := createObject_events_onRemote c o
    rcases hco : createObject c o with ⟨c2, evs, e⟩
    rw [hco] at hev hc
    cases e with
    | some e => exact hc ev (by simpa using hev)
    | none =>
      simp only [List.mem_append] at hev
      rcases hev with h | h
      · exact hc ev h
      · exact ih c2 ev h

theorem usesDerivedName_of_not_onRegistry (c : CAPICluster) (ev : Event)
    (h : ev.onRegistry = false) : usesDerivedName c ev = true := by
  cases ev <;> simp_all [Event.onRegistry, usesDerivedName]

theorem onRegistry_of_onRemote (ev : Event) (h : ev.onRemote = true) : ev.onRegistry = false := by
  cases ev <;> simp_all [Event.onRegistry, Event.onRemote]

theorem shouldAutoImport_events (cl : Client) (c : CAPICluster) :
    ∀ ev ∈ (shouldAutoImport cl c).2.2, ev = .namespaceGet c.ObjectMeta.Namespace := by
  intro ev hev
  unfold shouldAutoImport at hev
  rcases hs : shouldImport c.ObjectMeta with ⟨hasLabel, autoImport⟩
  cases hasLabel <;> cases autoImport <;>
    cases hn : cl.GetNamespace c.ObjectMeta.Namespace <;>
    simp_all

theorem getClusterRegistrationManifest_events (r : CAPIImportReconciler) (clusterName : String) :
    ∀ ev ∈ (getClusterRegistrationManifest r clusterName).2.2,
      ev.onRegistry = false ∧ ev.onRemote = false := by
  intro ev hev
  unfold getClusterRegistrationManifest at hev
  rcases ht : r.rancher.tokenGet ⟨clusterName, clusterRegistrationTokenName⟩ with ⟨tok, terr⟩
  dsimp only at hev
  rw [ht] at hev
  cases terr with
  | some e =>
    cases hnf : IsNotFound e <;> simp [hnf] at hev <;> subst hev <;> exact ⟨rfl, rfl⟩
  | none =>
    cases tok with
    | none => simp at hev; subst hev; exact ⟨rfl, rfl⟩
    | some token =>
      rcases hd : downloadManifest r.http token.ManifestURL with ⟨body, derr⟩
      cases derr <;> simp [hd] at hev <;> rcases hev with h | h <;> subst h <;> exact ⟨rfl, rfl⟩

theorem applyImportManifest_events (r : CAPIImportReconciler) (c : CAPICluster) (manifest : String) :
    ∀ ev ∈ (applyImportManifest r c manifest).1, ev.onRegistry = false := by
  intro ev hev
  unfold applyImportManifest at hev
  cases hg : r.remoteClientGetter c.ObjectMeta.Name ⟨c.ObjectMeta.Namespace, c.ObjectMeta.Name⟩ with
  | error e => simp [hg] at hev; subst hev; rfl
  | ok client =>
    cases hm : manifestToObjects r.decoder manifest with
    | error e => simp [hg, hm] at hev; subst hev; rfl
    | ok objs =>
      simp only [hg, hm, List.mem_cons] at hev
      rcases hev with h | h
      · subst h; rfl
      · exact onRegistry_of_onRemote ev (applyObjects_events_onRemote objs client ev h)

theorem reconcileNormal_events (r : CAPIImportReconciler) (c : CAPICluster)
    (rc : Option RancherCluster) :
    ∀ ev ∈ (reconcileNormal r c rc).events, usesDerivedName c ev = true := by
  intro ev hev
  unfold reconcileNormal at hev
  cases rc with
  | none =>
    have hsa := shouldAutoImport_events r.Client c
    rcases hs : shouldAutoImport r.Client c with ⟨b, e, evs⟩
    rw [hs] at hsa
    have hpre : ∀ x ∈ evs, usesDerivedName c x = true := by
      intro x hx
      rw [hsa x hx]; rfl
    simp only [hs] at hev
    split at hev
    · exact hpre ev hev
    · split at hev
      · exact hpre ev hev
      · split at hev <;>
          · simp only [List.mem_append, List.mem_singleton] at hev
            rcases hev with h | h
            · exact hpre ev h
            · subst h; simp [usesDerivedName]
  | some rcl =>
    dsimp only at hev
    have hg := getClusterRegistrationManifest_events r rcl.ClusterName
    rcases hm : getClusterRegistrationManifest r rcl.ClusterName with ⟨manifest, e, evs⟩
    rw [hm] at hg
    have hpre : ∀ x ∈ evs, usesDerivedName c x = true :=
      fun x hx => usesDerivedName_of_not_onRegistry c x (hg x hx).1
    have ha := applyImportManifest_events r c manifest
    rw [hm] at hev
    dsimp only at hev
    split at hev
    · simp at hev
    · split at hev
      · exact hpre ev hev
      · split at hev
        · exact hpre ev hev
        · rcases hap : applyImportManifest r c manifest with ⟨aevs, aerr⟩
          rw [hap] at hev ha
          have : ev ∈ evs ++ aevs := by
            cases aerr <;> simpa using hev
          rcases List.mem_append.mp this with h | h
          · exact hpre ev h
          · exact usesDerivedName_of_not_onRegistry c ev (ha ev h)

theorem Reconcile_events (r : CAPIImportReconciler) (req : ObjectKey) (c : CAPICluster)
    (hc : r.Client.GetCluster req = .ok c) :
    ∀ ev ∈ (Reconcile r req).events, usesDerivedName c ev = true := by
  intro ev hev
  unfold Reconcile at hev
  rw [hc] at hev
  dsimp only at hev
  split at hev
  · simp at hev; subst hev; rfl
  · split at hev
    · simp at hev
      rcases hev with h | h <;> subst h <;> simp [usesDerivedName]
    · simp only [List.mem_append, List.mem_cons, List.mem_singleton, List.not_mem_nil, or_false] at hev
      rcases hev with (h | h) | h
      · subst h; rfl
      · subst h; simp [usesDerivedName]
      · split at h
        · simp [reconcileDelete] at h
        · exact reconcileNormal_events r c _ ev h

theorem Reconcile_events_no_cluster (r : CAPIImportReconciler) (req : ObjectKey) (e : GoError)
    (hc : r.Client.GetCluster req = .error e) :
    (Reconcile r req).events = [.clusterGet req] := by
  unfold Reconcile
  rw [hc]
  dsimp only
  split <;> rfl

/-- C10. The registry name of a primary cluster named `n` is `n` followed by
`-capi`; the derivation is injective, so two distinct primary identities
(namespace, name) never have the same registry identity (namespace, derived
name); and in every reconciliation, each registry read and each registry
create addresses the reconciled cluster's namespace and this derived name. -/
theorem rancherClusterName_derivation :
    (∀ n : String, rancherClusterNameFromCAPICluster n = n ++ "-capi") ∧
    (∀ n m : String, rancherClusterNameFromCAPICluster n = rancherClusterNameFromCAPICluster m → n = m) ∧
    (∀ a b : ObjectKey,
      (⟨a.Namespace, rancherClusterNameFromCAPICluster a.Name⟩ : ObjectKey)
        = ⟨b.Namespace, rancherClusterNameFromCAPICluster b.Name⟩ → a = b) ∧
    (∀ (r : CAPIImportReconciler) (req : ObjectKey),
      (∀ key, Event.rancherGet key ∈ (Reconcile r req).events →
        ∃ c, r.Client.GetCluster req = .ok c ∧
          key = ⟨c.ObjectMeta.Namespace, rancherClusterNameFromCAPICluster c.ObjectMeta.Name⟩) ∧
      (∀ rc, Event.rancherCreate rc ∈ (Reconcile r req).events →
        ∃ c, r.Client.GetCluster req = .ok c ∧
          rc.Name = rancherClusterNameFromCAPICluster c.ObjectMeta.Name ∧
          rc.Namespace = c.ObjectMeta.Namespace)) := by
  refine ⟨fun _ => rfl, rancherClusterName_injective, ?_, ?_⟩
  · intro a b h
    cases a; cases b
    simp only [ObjectKey.mk.injEq] at h ⊢
    exact ⟨h.1, rancherClusterName_injective _ _ h.2⟩
  · intro r req
    cases hc : r.Client.GetCluster req with
    | error e =>
      rw [Reconcile_events_no_cluster r req e hc]
      simp
    | ok c =>
      refine ⟨fun key hk => ⟨c, rfl, ?_⟩, fun rc hk => ⟨c, rfl, ?_⟩⟩
      · simpa [usesDerivedName] using Reconcile_events r req c hc _ hk
      · simpa [usesDerivedName] using Reconcile_events r req c hc _ hk

/-- A reconciliation of a cluster that is found, control-plane-ready and not
being deleted, and whose registry read did not fail (NotFound apart), is
`reconcileNormal` after the two reads. -/
theorem Reconcile_eq_reconcileNormal (r : CAPIImportReconciler) (req : ObjectKey) (c : CAPICluster)
    (rcl : Option RancherCluster) (e : Option GoError)
    (hc : r.Client.GetCluster req = .ok c)
    (hready : c.ControlPlaneReady = true)
    (hdel : c.ObjectMeta.deletionIsZero = true)
    (hget : r.rancher.clusterGet
      ⟨c.ObjectMeta.Namespace, rancherClusterNameFromCAPICluster c.ObjectMeta.Name⟩ = (rcl, e))
    (he : ∀ x, e = some x → IsNotFound x = true) :
    Reconcile r req =
      ⟨(reconcileNormal r c rcl).res, (reconcileNormal r c rcl).err,
        [.clusterGet req,
          .rancherGet ⟨c.ObjectMeta.Namespace, rancherClusterNameFromCAPICluster c.ObjectMeta.Name⟩]
          ++ (reconcileNormal r c rcl).events⟩ := by
  have hany : e.any (fun x => !IsNotFound x) = false := by
    cases e with
    | none => rfl
    | some x => simp [he x rfl]
  unfold Reconcile
  rw [hc]
  simp only [hready, hdel, hget, hany, Bool.not_true, Bool.false_eq_true, if_false]

theorem reconcileNormal_none (r : CAPIImportReconciler) (c : CAPICluster) :
    reconcileNormal r c none =
      if (shouldAutoImport r.Client c).2.1.isSome then
        ⟨Result.empty, (shouldAutoImport r.Client c).2.1, (shouldAutoImport r.Client c).2.2⟩
      else if !(shouldAutoImport r.Client c).1 then
        ⟨Result.empty, none, (shouldAutoImport r.Client c).2.2⟩
      else
        match r.rancher.clusterCreate
            ⟨rancherClusterNameFromCAPICluster c.ObjectMeta.Name, c.ObjectMeta.Namespace, "", false⟩ with
        | some err =>
          ⟨Result.empty, some (.wrap "error creating rancher cluster" err),
            (shouldAutoImport r.Client c).2.2 ++ [.rancherCreate
              ⟨rancherClusterNameFromCAPICluster c.ObjectMeta.Name, c.ObjectMeta.Namespace, "", false⟩]⟩
        | none =>
          ⟨⟨true, 0⟩, none,
            (shouldAutoImport r.Client c).2.2 ++ [.rancherCreate
              ⟨rancherClusterNameFromCAPICluster c.ObjectMeta.Name, c.ObjectMeta.Namespace, "", false⟩]⟩ := by
  unfold reconcileNormal
  rcases shouldAutoImport r.Client c with ⟨b, e, evs⟩
  rfl

theorem reconcileNormal_some (r : CAPIImportReconciler) (c : CAPICluster) (rcl : RancherCluster) :
    reconcileNormal r c (some rcl) =
      if rcl.AgentDeployed then ⟨Result.empty, none, []⟩
      else if (getClusterRegistrationManifest r rcl.ClusterName).2.1.isSome then
        ⟨Result.empty, (getClusterRegistrationManifest r rcl.ClusterName).2.1,
          (getClusterRegistrationManifest r rcl.ClusterName).2.2⟩
      else if (getClusterRegistrationManifest r rcl.ClusterName).1 = "" then
        ⟨⟨true, 0⟩, none, (getClusterRegistrationManifest r rcl.ClusterName).2.2⟩
      else
        ⟨Result.empty,
          if (applyImportManifest r c (getClusterRegistrationManifest r rcl.ClusterName).1).2.isSome
          then (getClusterRegistrationManifest r rcl.ClusterName).2.1 else none,
          (getClusterRegistrationManifest r rcl.ClusterName).2.2
            ++ (applyImportManifest r c (getClusterRegistrationManifest r rcl.ClusterName).1).1⟩ := by
  unfold reconcileNormal
  dsimp only
  generalize getClusterRegistrationManifest r rcl.ClusterName = g
  rcases g with ⟨m, e, evs⟩
  dsimp only
  generalize applyImportManifest r c m = a
  rcases a with ⟨aevs, aerr⟩
  cases aerr <;> rfl

theorem createdRecords_eq_nil (evs : List Event) (h : ∀ ev ∈ evs, ev.onRegistry = false) :
    createdRecords evs = [] := by
  unfold createdRecords
  rw [List.filterMap_eq_nil_iff]
  intro ev hev
  have := h ev hev
  cases ev <;> simp_all [Event.onRegistry]

theorem createdRecords_append (a b : List Event) :
    createdRecords (a ++ b) = createdRecords a ++ createdRecords b := by
  unfold createdRecords
  exact List.filterMap_append _ _ _

theorem createdRecords_reads (req key : ObjectKey) (l : List Event) :
    createdRecords (.clusterGet req :: .rancherGet key :: l) = createdRecords l := rfl

theorem createdRecords_single (rc : RancherCluster) :
    createdRecords [.rancherCreate rc] = [rc] := rfl

theorem createdRecords_shouldAutoImport (cl : Client) (c : CAPICluster) :
    createdRecords (shouldAutoImport cl c).2.2 = [] := by
  apply createdRecords_eq_nil
  intro ev hev
  rw [shouldAutoImport_events cl c ev hev]
  rfl


/-- C6 (as amended). For a control-plane-ready, non-deleting primary cluster
without a registry record: when the auto-import policy resolves to eligible,
`Reconcile` issues exactly one registry Create, for the record named
`<cluster name>-capi` in the cluster's own namespace, and the result is
Requeue=true without error if that Create succeeds and the wrapped Create error
without requeue if it fails; when the policy resolves to not eligible, no
Create is issued and the result is the empty result; when resolving the policy
fails, no Create is issued and that error is returned. -/
theorem Reconcile_no_registry_record (r : CAPIImportReconciler) (req : ObjectKey) (c : CAPICluster)
    (e : Option GoError)
    (hc : r.Client.GetCluster req = .ok c)
    (hready : c.ControlPlaneReady = true)
    (hdel : c.ObjectMeta.deletionIsZero = true)
    (hget : r.rancher.clusterGet
      ⟨c.ObjectMeta.Namespace, rancherClusterNameFromCAPICluster c.ObjectMeta.Name⟩ = (none, e))
    (he : ∀ x, e = some x → IsNotFound x = true) :
    ((shouldAutoImport r.Client c).1 = true → (shouldAutoImport r.Client c).2.1 = none →
      createdRecords (Reconcile r req).events = [recordFor c] ∧
      (recordFor c).Name = c.ObjectMeta.Name ++ "-capi" ∧
      (recordFor c).Namespace = c.ObjectMeta.Namespace ∧
      (r.rancher.clusterCreate (recordFor c) = none →
        (Reconcile r req).res = ⟨true, 0⟩ ∧ (Reconcile r req).err = none) ∧
      (∀ x, r.rancher.clusterCreate (recordFor c) = some x →
        (Reconcile r req).res = Result.empty ∧
        (Reconcile r req).err = some (.wrap "error creating rancher cluster" x))) ∧
    ((shouldAutoImport r.Client c).1 = false → (shouldAutoImport r.Client c).2.1 = none →
      createdRecords (Reconcile r req).events = [] ∧
      (Reconcile r req).res = Result.empty ∧ (Reconcile r req).err = none) ∧
    (∀ x, (shouldAutoImport r.Client c).2.1 = some x →
      createdRecords (Reconcile r req).events = [] ∧
      (Reconcile r req).res = Result.empty ∧ (Reconcile r req).err = some x) := by
  have hpol := createdRecords_shouldAutoImport r.Client c
  rw [Reconcile_eq_reconcileNormal r req c none e hc hready hdel hget he, reconcileNormal_none]
  refine ⟨?_, ?_, ?_⟩
  · intro hb herr
    refine ⟨?_, rfl, rfl, ?_, ?_⟩
    · simp only [hb, herr, Option.isSome_none, Bool.false_eq_true, if_false, Bool.not_true]
      cases r.rancher.clusterCreate
          ⟨rancherClusterNameFromCAPICluster c.ObjectMeta.Name, c.ObjectMeta.Namespace, "", false⟩ <;>
        simp [createdRecords_reads, createdRecords_append, createdRecords_single, hpol, recordFor]
    · intro hcr
      unfold recordFor at hcr
      simp [hb, herr, hcr]
    · intro x hcr
      unfold recordFor at hcr
      simp [hb, herr, hcr]
  · intro hb herr
    simp [hb, herr, createdRecords_reads, hpol]
  · intro x herr
    simp [herr, createdRecords_reads, hpol]

/-- C6, as stated, fails: cluster `c1` of the opted-in namespace `team-a` has
no registry record and is eligible, the registry refuses the Create, and
`Reconcile` returns that error without requeue instead of Requeue=true and no
error. -/
theorem Reconcile_no_registry_record_create_fails :
    (shouldAutoImport sampleClient clusterPlain).1 = true ∧
    ¬ ((Reconcile (sampleReconciler (none, some (.notFound "c1-capi")) (some (.other "forbidden"))
          (none, none) (plainRemote [])) ⟨"team-a", "c1"⟩).res = ⟨true, 0⟩ ∧
       (Reconcile (sampleReconciler (none, some (.notFound "c1-capi")) (some (.other "forbidden"))
          (none, none) (plainRemote [])) ⟨"team-a", "c1"⟩).err = none) := by
  decide

/-- C6 (as amended) at a sample input: cluster `c1` of the opted-in namespace has
no registry record, the Create succeeds, and the reconciliation requeues. -/
theorem Reconcile_no_registry_record_witness :
    (shouldAutoImport sampleClient clusterPlain).1 = true ∧
    (shouldAutoImport sampleClient clusterPlain).2.1 = none ∧
    createdRecords (Reconcile (sampleReconciler (none, some (.notFound "c1-capi")) none
      (none, none) (plainRemote [])) ⟨"team-a", "c1"⟩).events = [recordFor clusterPlain] ∧
    (Reconcile (sampleReconciler (none, some (.notFound "c1-capi")) none
      (none, none) (plainRemote [])) ⟨"team-a", "c1"⟩).res = ⟨true, 0⟩ :=
  have h := (Reconcile_no_registry_record
    (sampleReconciler (none, some (.notFound "c1-capi")) none (none, none) (plainRemote []))
    ⟨"team-a", "c1"⟩ clusterPlain (some (.notFound "c1-capi")) (by decide) (by decide) (by decide)
    (by decide) (by intro x hx; cases hx; rfl)).1 (by decide) (by decide)
  ⟨by decide, by decide, h.1, (h.2.2.2.1 (by decide)).1⟩

theorem getClusterRegistrationManifest_token (r : CAPIImportReconciler) (clusterName : String)
    (token : ClusterRegistrationToken)
    (htok : r.rancher.tokenGet ⟨clusterName, clusterRegistrationTokenName⟩ = (some token, none)) :
    getClusterRegistrationManifest r clusterName =
      (if (downloadManifest r.http token.ManifestURL).2.isSome then ""
        else (downloadManifest r.http token.ManifestURL).1,
       (downloadManifest r.http token.ManifestURL).2,
       [.tokenGet ⟨clusterName, clusterRegistrationTokenName⟩, .httpGet token.ManifestURL]) := by
  unfold getClusterRegistrationManifest
  dsimp only
  rw [htok]
  dsimp only
  generalize downloadManifest r.http token.ManifestURL = d
  rcases d with ⟨body, derr⟩
  cases derr <;> rfl

theorem getClusterRegistrationManifest_absent (r : CAPIImportReconciler) (clusterName : String)
    (t : Option ClusterRegistrationToken) (e : Option GoError)
    (htok : r.rancher.tokenGet ⟨clusterName, clusterRegistrationTokenName⟩ = (t, e))
    (h : (∃ x, e = some x ∧ IsNotFound x = true) ∨ (t = none ∧ e = none)) :
    getClusterRegistrationManifest r clusterName =
      ("", none, [.tokenGet ⟨clusterName, clusterRegistrationTokenName⟩]) := by
  unfold getClusterRegistrationManifest
  dsimp only
  rw [htok]
  rcases h with ⟨x, hx, hnf⟩ | ⟨ht, he⟩
  · subst hx
    simp [hnf]
  · subst ht; subst he
    rfl

/-- The part of C3 that holds: when the registration token is not found (a
NotFound error, or a nil token), the reconciliation of a registered cluster
whose agent is not deployed requeues without error after the token read, with
no download and no call on the remote cluster. -/
theorem Reconcile_token_absent (r : CAPIImportReconciler) (req : ObjectKey) (c : CAPICluster)
    (rcl : RancherCluster) (e : Option GoError)
    (t : Option ClusterRegistrationToken) (te : Option GoError)
    (hc : r.Client.GetCluster req = .ok c)
    (hready : c.ControlPlaneReady = true)
    (hdel : c.ObjectMeta.deletionIsZero = true)
    (hget : r.rancher.clusterGet
      ⟨c.ObjectMeta.Namespace, rancherClusterNameFromCAPICluster c.ObjectMeta.Name⟩ = (some rcl, e))
    (he : ∀ x, e = some x → IsNotFound x = true)
    (hagent : rcl.AgentDeployed = false)
    (htok : r.rancher.tokenGet ⟨rcl.ClusterName, clusterRegistrationTokenName⟩ = (t, te))
    (h : (∃ x, te = some x ∧ IsNotFound x = true) ∨ (t = none ∧ te = none)) :
    Reconcile r req = ⟨⟨true, 0⟩, none,
      [.clusterGet req,
        .rancherGet ⟨c.ObjectMeta.Namespace, rancherClusterNameFromCAPICluster c.ObjectMeta.Name⟩,
        .tokenGet ⟨rcl.ClusterName, clusterRegistrationTokenName⟩]⟩ := by
  rw [Reconcile_eq_reconcileNormal r req c (some rcl) e hc hready hdel hget he, reconcileNormal_some,
    getClusterRegistrationManifest_absent r rcl.ClusterName t te htok h]
  simp [hagent]

/-- The defect behind C1, for every input: whenever the manifest was fetched
non-empty and applying it fails, `Reconcile` returns the empty result and a nil
error. -/
theorem Reconcile_apply_failure_dropped (r : CAPIImportReconciler) (req : ObjectKey) (c : CAPICluster)
    (rcl : RancherCluster) (e : Option GoError) (manifest : String) (evs : List Event)
    (applyErr : GoError)
    (hc : r.Client.GetCluster req = .ok c)
    (hready : c.ControlPlaneReady = true)
    (hdel : c.ObjectMeta.deletionIsZero = true)
    (hget : r.rancher.clusterGet
      ⟨c.ObjectMeta.Namespace, rancherClusterNameFromCAPICluster c.ObjectMeta.Name⟩ = (some rcl, e))
    (he : ∀ x, e = some x → IsNotFound x = true)
    (hagent : rcl.AgentDeployed = false)
    (hman : getClusterRegistrationManifest r rcl.ClusterName = (manifest, none, evs))
    (hne : manifest ≠ "")
    (happly : (applyImportManifest r c manifest).2 = some applyErr) :
    (Reconcile r req).err = none ∧ (Reconcile r req).res = Result.empty := by
  rw [Reconcile_eq_reconcileNormal r req c (some rcl) e hc hready hdel hget he, reconcileNormal_some, hman]
  simp [hagent, hne, happly]

/-- C1 (code defect). Cluster `c1` is control-plane-ready and not being
deleted, its registry record exists with AgentDeployed=false, and the manifest
is fetched non-empty; the remote cluster refuses the Create, so
`applyImportManifest` returns an error; `Reconcile` nevertheless returns the
empty result with a nil error. -/
theorem Reconcile_apply_failure_returns_nil :
    (getClusterRegistrationManifest
      (sampleReconciler (some recordC1, none) none (some ⟨"https://rancher/import.yaml"⟩, none) readOnlyRemote)
      recordC1.ClusterName).1 = "three" ∧
    (applyImportManifest
      (sampleReconciler (some recordC1, none) none (some ⟨"https://rancher/import.yaml"⟩, none) readOnlyRemote)
      clusterPlain "three").2 = some (.wrap "creating object in remote cluster" (.other "forbidden")) ∧
    Reconcile
      (sampleReconciler (some recordC1, none) none (some ⟨"https://rancher/import.yaml"⟩, none) readOnlyRemote)
      ⟨"team-a", "c1"⟩ =
      ⟨Result.empty, none,
        [.clusterGet ⟨"team-a", "c1"⟩, .rancherGet ⟨"team-a", "c1-capi"⟩,
          .tokenGet ⟨"c-m-abc", "default-token"⟩, .httpGet "https://rancher/import.yaml",
          .remoteClient "c1" ⟨"team-a", "c1"⟩,
          .remoteGet objA.gvk ⟨"", "cattle-system"⟩, .remoteCreate objA]⟩ := by
  decide

/-- C3 (code defect). The registration token of cluster `c1` is found with an
empty manifest URL. `Reconcile` still calls `downloadManifest` on the empty
URL; the GET fails, and the reconciliation returns that error without requeue,
instead of Requeue=true with no error and no download. -/
theorem Reconcile_empty_manifest_url_downloads :
    Reconcile
      (sampleReconciler (some recordC1, none) none (some ⟨""⟩, none) (plainRemote []))
      ⟨"team-a", "c1"⟩ =
      ⟨Result.empty, some (.wrap "downloading manifest" (.other "unsupported protocol scheme")),
        [.clusterGet ⟨"team-a", "c1"⟩, .rancherGet ⟨"team-a", "c1-capi"⟩,
          .tokenGet ⟨"c-m-abc", "default-token"⟩, .httpGet ""]⟩ := by
  decide

/-- C5 (code defect). The namespace object `team-a` is opted in. The mapper
lists with `InNamespace(o.GetNamespace())`, and `GetNamespace()` of a
namespace object is empty, so the list spans all namespaces: the keys include
cluster `c2` of namespace `team-b`. -/
theorem namespaceToCapiClusters_lists_all_namespaces :
    namespaceToCapiClusters sampleClient (.nsObject nsOptIn) =
      ([⟨"team-a", "c0"⟩, ⟨"team-a", "c1"⟩, ⟨"team-b", "c2"⟩], [.clusterList ""]) := by
  decide

/-- C9 (as amended). When the HTTP GET of the manifest URL itself fails, or
reading the response body fails, `downloadManifest` returns the wrapped error
and no manifest text, and the reconciliation of a registered cluster whose
agent is not deployed ends in that error right after the download, with no
call on the remote cluster. When the GET succeeds and the body is read,
`downloadManifest` returns the body and no error, whatever the status code. -/
theorem downloadManifest_failure (r : CAPIImportReconciler) (req : ObjectKey) (c : CAPICluster)
    (rcl : RancherCluster) (e : Option GoError) (token : ClusterRegistrationToken)
    (hc : r.Client.GetCluster req = .ok c)
    (hready : c.ControlPlaneReady = true)
    (hdel : c.ObjectMeta.deletionIsZero = true)
    (hget : r.rancher.clusterGet
      ⟨c.ObjectMeta.Namespace, rancherClusterNameFromCAPICluster c.ObjectMeta.Name⟩ = (some rcl, e))
    (he : ∀ x, e = some x → IsNotFound x = true)
    (hagent : rcl.AgentDeployed = false)
    (htok : r.rancher.tokenGet ⟨rcl.ClusterName, clusterRegistrationTokenName⟩ = (some token, none)) :
    (∀ x, r.http token.ManifestURL = .error x →
      downloadManifest r.http token.ManifestURL = ("", some (.wrap "downloading manifest" x)) ∧
      Reconcile r req = ⟨Result.empty, some (.wrap "downloading manifest" x),
        [.clusterGet req,
          .rancherGet ⟨c.ObjectMeta.Namespace, rancherClusterNameFromCAPICluster c.ObjectMeta.Name⟩,
          .tokenGet ⟨rcl.ClusterName, clusterRegistrationTokenName⟩, .httpGet token.ManifestURL]⟩) ∧
    (∀ resp x, r.http token.ManifestURL = .ok resp → resp.ReadErr = some x →
      downloadManifest r.http token.ManifestURL = ("", some (.wrap "reading manifest" x)) ∧
      Reconcile r req = ⟨Result.empty, some (.wrap "reading manifest" x),
        [.clusterGet req,
          .rancherGet ⟨c.ObjectMeta.Namespace, rancherClusterNameFromCAPICluster c.ObjectMeta.Name⟩,
          .tokenGet ⟨rcl.ClusterName, clusterRegistrationTokenName⟩, .httpGet token.ManifestURL]⟩) ∧
    (∀ resp, r.http token.ManifestURL = .ok resp → resp.ReadErr = none →
      downloadManifest r.http token.ManifestURL = (resp.Body, none)) := by
  rw [Reconcile_eq_reconcileNormal r req c (some rcl) e hc hready hdel hget he, reconcileNormal_some,
    getClusterRegistrationManifest_token r rcl.ClusterName token htok]
  refine ⟨?_, ?_, ?_⟩
  · intro x hx
    have hd : downloadManifest r.http token.ManifestURL = ("", some (.wrap "downloading manifest" x)) := by
      unfold downloadManifest; rw [hx]
    refine ⟨hd, ?_⟩
    simp [hagent, hd]
  · intro resp x hresp hx
    have hd : downloadManifest r.http token.ManifestURL = ("", some (.wrap "reading manifest" x)) := by
      unfold downloadManifest; rw [hresp]; dsimp only; rw [hx]
    refine ⟨hd, ?_⟩
    simp [hagent, hd]
  · intro resp hresp hx
    unfold downloadManifest; rw [hresp]; dsimp only; rw [hx]

/-- C9, as stated, fails for a response with a non-success status: the URL
answers 500 with an error page, `downloadManifest` returns the page as the
manifest text with a nil error, and the reconciliation goes on to the apply
step (it resolves the remote client) and ends without error. -/
theorem downloadManifest_ignores_status :
    sampleHttp "https://rancher/broken.yaml" = .ok ⟨500, "Internal Server Error", none⟩ ∧
    downloadManifest sampleHttp "https://rancher/broken.yaml" = ("Internal Server Error", none) ∧
    Reconcile
      (sampleReconciler (some recordC1, none) none (some ⟨"https://rancher/broken.yaml"⟩, none) (plainRemote []))
      ⟨"team-a", "c1"⟩ =
      ⟨Result.empty, none,
        [.clusterGet ⟨"team-a", "c1"⟩, .rancherGet ⟨"team-a", "c1-capi"⟩,
          .tokenGet ⟨"c-m-abc", "default-token"⟩, .httpGet "https://rancher/broken.yaml",
          .remoteClient "c1" ⟨"team-a", "c1"⟩]⟩ := by
  decide

/-- C9 (as amended) at a sample input: the GET of the manifest URL is refused and
the reconciliation ends in the wrapped transport error. -/
theorem downloadManifest_failure_witness :
    sampleHttp "https://rancher/down.yaml" = .error (.other "dial tcp: connection refused") ∧
    downloadManifest sampleHttp "https://rancher/down.yaml"
      = ("", some (.wrap "downloading manifest" (.other "dial tcp: connection refused"))) ∧
    (Reconcile
      (sampleReconciler (some recordC1, none) none (some ⟨"https://rancher/down.yaml"⟩, none) (plainRemote []))
      ⟨"team-a", "c1"⟩).err = some (.wrap "downloading manifest" (.other "dial tcp: connection refused")) :=
  have h := (downloadManifest_failure
    (sampleReconciler (some recordC1, none) none (some ⟨"https://rancher/down.yaml"⟩, none) (plainRemote []))
    ⟨"team-a", "c1"⟩ clusterPlain recordC1 none ⟨"https://rancher/down.yaml"⟩
    (by decide) (by decide) (by decide) (by decide) (by intro x hx; cases hx) (by decide) (by decide)).1
    (.other "dial tcp: connection refused") (by decide)
  ⟨by decide, h.1, by rw [h.2]⟩

/-- C10 at a sample input: the registry read of the reconciliation of cluster `c1`
addresses `team-a/c1-capi`. -/
theorem rancherClusterName_derivation_witness :
    rancherClusterNameFromCAPICluster "c1" = "c1" ++ "-capi" ∧
    ∃ c, sampleClient.GetCluster ⟨"team-a", "c1"⟩ = .ok c ∧
      (⟨"team-a", "c1-capi"⟩ : ObjectKey)
        = ⟨c.ObjectMeta.Namespace, rancherClusterNameFromCAPICluster c.ObjectMeta.Name⟩ :=
  ⟨rancherClusterName_derivation.1 "c1",
    (rancherClusterName_derivation.2.2.2
      (sampleReconciler (none, some (.notFound "c1-capi")) none (none, none) (plainRemote []))
      ⟨"team-a", "c1"⟩).1 ⟨"team-a", "c1-capi"⟩ (by decide)⟩

theorem toObjects_of_decodes (d : Decoder) (raw : String) (h : documentDecodes d raw = true) :
    toObjects d raw = .ok (documentContribution d raw) := by
  unfold documentDecodes at h
  unfold toObjects documentContribution
  cases hj : d.ToJSON raw with
  | error e => simp [hj] at h
  | ok json =>
    rw [hj] at h
    cases json with
    | null => rfl
    | bool b => simp at h
    | num n => simp at h
    | str s => simp at h
    | arr items => simp at h
    | obj fields =>
      cases fields with
      | nil => rfl
      | cons f fs =>
        dsimp only at h ⊢
        cases hd : d.Decode (.obj (f :: fs)) with
        | error e => simp [hd] at h
        | ok o => cases o <;> simp [unmarshalCheck]

theorem manifestLoop_of_decodes (d : Decoder) (docs : List String)
    (h : ∀ raw ∈ docs, documentDecodes d raw = true) :
    ∀ acc, manifestLoop d none docs acc = .ok (acc ++ (docs.map (documentContribution d)).flatten) := by
  induction docs with
  | nil => intro acc; simp [manifestLoop]
  | cons raw rest ih =>
    intro acc
    have hraw := toObjects_of_decodes d raw (h raw (List.mem_cons_self _ _))
    have hrest := ih (fun x hx => h x (List.mem_cons_of_mem _ hx))
    simp [manifestLoop, hraw, hrest]

/-- C8. For a manifest whose reader ends without error and whose documents all
decode, `manifestToObjects` returns the concatenation, in document order, of
what each document contributes; a document that decodes to null or to an empty
map contributes nothing, a document that decodes to a list container
contributes its member objects in their order, and any other document
contributes exactly its one object. -/
theorem manifestToObjects_concat (d : Decoder) (manifest : String) (docs : List String)
    (hread : d.Read manifest = (docs, none))
    (hdec : ∀ raw ∈ docs, documentDecodes d raw = true) :
    manifestToObjects d manifest = .ok (docs.map (documentContribution d)).flatten ∧
    (∀ raw ∈ docs, toObjects d raw = .ok (documentContribution d raw)) ∧
    (∀ raw ∈ docs, d.ToJSON raw = .ok .null → documentContribution d raw = []) ∧
    (∀ raw ∈ docs, d.ToJSON raw = .ok (.obj []) → documentContribution d raw = []) ∧
    (∀ raw ∈ docs, ∀ f fs items, d.ToJSON raw = .ok (.obj (f :: fs)) →
      d.Decode (.obj (f :: fs)) = .ok (.list items) → documentContribution d raw = items) ∧
    (∀ raw ∈ docs, ∀ f fs u, d.ToJSON raw = .ok (.obj (f :: fs)) →
      d.Decode (.obj (f :: fs)) = .ok (.unstructured u) → documentContribution d raw = [u]) := by
  refine ⟨?_, fun raw hraw => toObjects_of_decodes d raw (hdec raw hraw), ?_, ?_, ?_, ?_⟩
  · unfold manifestToObjects
    rw [hread]
    simpa using manifestLoop_of_decodes d docs hdec []
  · intro raw _ hj
    unfold documentContribution; rw [hj]
  · intro raw _ hj
    unfold documentContribution; rw [hj]
  · intro raw _ f fs items hj hd
    unfold documentContribution; rw [hj]; dsimp only; rw [hd]
  · intro raw _ f fs u hj hd
    unfold documentContribution; rw [hj]; dsimp only; rw [hd]

/-- C8 at a sample input: a namespace document, a blank document and a list of two
give three objects in document order. -/
theorem manifestToObjects_concat_witness :
    sampleDecoder.Read "three" = (["a", "", "list"], none) ∧
    manifestToObjects sampleDecoder "three" = .ok [objA, objB, objC] :=
  ⟨by decide, by
    have h := (manifestToObjects_concat sampleDecoder "three" ["a", "", "list"] (by decide)
      (by decide)).1
    rw [h]; decide⟩

theorem withObjects_self (c : RemoteClient) : c.withObjects c.objects = c := rfl

theorem createObject_found (c : RemoteClient) (o u : Unstructured)
    (h : c.Get o.gvk o.key = .ok u) :
    createObject c o = (c, [.remoteGet o.gvk o.key], none) := by
  unfold Unstructured.key at h
  simp [createObject, h, Unstructured.key]

theorem createObject_read_error (c : RemoteClient) (o : Unstructured) (e : GoError)
    (h : c.Get o.gvk o.key = .error e) (hnf : IsNotFound e = false) :
    createObject c o =
      (c, [.remoteGet o.gvk o.key], some (.wrap "getting object from remote cluster" e)) := by
  unfold Unstructured.key at h
  simp [createObject, h, hnf, Unstructured.key]

theorem createObject_created (c c2 : RemoteClient) (o : Unstructured) (e : GoError)
    (h : c.Get o.gvk o.key = .error e) (hnf : IsNotFound e = true) (hcr : c.Create o = .ok c2) :
    createObject c o = (c2, [.remoteGet o.gvk o.key, .remoteCreate o], none) := by
  unfold Unstructured.key at h
  simp [createObject, h, hnf, hcr, Unstructured.key]

theorem createObject_create_error (c : RemoteClient) (o : Unstructured) (e e2 : GoError)
    (h : c.Get o.gvk o.key = .error e) (hnf : IsNotFound e = true) (hcr : c.Create o = .error e2) :
    createObject c o =
      (c, [.remoteGet o.gvk o.key, .remoteCreate o],
        some (.wrap "creating object in remote cluster" e2)) := by
  unfold Unstructured.key at h
  simp [createObject, h, hnf, hcr, Unstructured.key]

theorem Create_ok_eq (c c2 : RemoteClient) (o : Unstructured) (h : c.Create o = .ok c2) :
    c2 = c.withObjects (c.objects ++ [o]) := by
  unfold RemoteClient.Create at h
  cases hce : c.createErr o with
  | some msg => simp [hce] at h
  | none =>
    simp only [hce] at h
    split at h
    · simp at h
    · simp only [Except.ok.injEq] at h
      rw [← h]; rfl

/-- After `createObject` the client is the same client over a store that is
the old store followed by what the call created, and a call that returns no
error created what its Create events name. -/
theorem createObject_store (c : RemoteClient) (o : Unstructured) :
    (createObject c o).1 = c.withObjects (createObject c o).1.objects ∧
    ((createObject c o).2.2 = none →
      (createObject c o).1.objects = c.objects ++ createdObjects (createObject c o).2.1) ∧
    ((createObject c o).2.2 ≠ none → (createObject c o).1 = c) := by
  cases hg : c.Get o.gvk o.key with
  | ok u =>
    rw [createObject_found c o u hg]
    exact ⟨rfl, fun _ => by simp [createdObjects], fun h => absurd rfl h⟩
  | error e =>
    cases hnf : IsNotFound e with
    | false =>
      rw [createObject_read_error c o e hg hnf]
      exact ⟨rfl, fun h => by simp at h, fun _ => rfl⟩
    | true =>
      cases hcr : c.Create o with
      | error e2 =>
        rw [createObject_create_error c o e e2 hg hnf hcr]
        exact ⟨rfl, fun h => by simp at h, fun _ => rfl⟩
      | ok c2 =>
        rw [createObject_created c c2 o e hg hnf hcr, Create_ok_eq c c2 o hcr]
        exact ⟨rfl, fun _ => by simp [createdObjects, RemoteClient.withObjects], fun h => absurd rfl h⟩

theorem applyObjects_cons_ok (c c2 : RemoteClient) (o : Unstructured) (rest : List Unstructured)
    (evs : List Event) (h : createObject c o = (c2, evs, none)) :
    applyObjects c (o :: rest) =
      ⟨(applyObjects c2 rest).objects, evs ++ (applyObjects c2 rest).events, (applyObjects c2 rest).err⟩ := by
  simp [applyObjects, h]

theorem applyObjects_cons_err (c c2 : RemoteClient) (o : Unstructured) (rest : List Unstructured)
    (evs : List Event) (e : GoError) (h : createObject c o = (c2, evs, some e)) :
    applyObjects c (o :: rest) = ⟨c2.objects, evs, some e⟩ := by
  simp [applyObjects, h]

/-- Applying `pre ++ rest` is applying `pre` and, when that returns no error,
applying `rest` to the store it leaves. -/
theorem applyObjects_append (pre rest : List Unstructured) :
    ∀ c : RemoteClient, (applyObjects c pre).err = none →
      applyObjects c (pre ++ rest) =
        ⟨(applyObjects (c.withObjects (applyObjects c pre).objects) rest).objects,
          (applyObjects c pre).events ++ (applyObjects (c.withObjects (applyObjects c pre).objects) rest).events,
          (applyObjects (c.withObjects (applyObjects c pre).objects) rest).err⟩ := by
  induction pre with
  | nil => intro c _; simp [applyObjects, withObjects_self]
  | cons o pre ih =>
    intro c h
    have hst := (createObject_store c o).1
    rcases hco : createObject c o with ⟨c2, evs, e⟩
    rw [hco] at hst
    cases e with
    | some e =>
      rw [applyObjects_cons_err c c2 o pre evs e hco] at h
      simp at h
    | none =>
      rw [applyObjects_cons_ok c c2 o pre evs hco] at h
      rw [List.cons_append, applyObjects_cons_ok c c2 o (pre ++ rest) evs hco,
        applyObjects_cons_ok c c2 o pre evs hco, ih c2 h]
      have hw : c2.withObjects (applyObjects c2 pre).objects
          = c.withObjects (applyObjects c2 pre).objects := by
        dsimp only at hst
        rw [hst]; rfl
      simp [hw]

/-- An apply that returns no error leaves the old store followed by the
objects its Create events name, in order. -/
theorem applyObjects_objects (objs : List Unstructured) :
    ∀ c : RemoteClient, (applyObjects c objs).err = none →
      (applyObjects c objs).objects = c.objects ++ createdObjects (applyObjects c objs).events := by
  induction objs with
  | nil => intro c _; simp [applyObjects, createdObjects]
  | cons o rest ih =>
    intro c h
    have hst := (createObject_store c o).2.1
    rcases hco : createObject c o with ⟨c2, evs, e⟩
    rw [hco] at hst
    cases e with
    | some e =>
      rw [applyObjects_cons_err c c2 o rest evs e hco] at h
      simp at h
    | none =>
      rw [applyObjects_cons_ok c c2 o rest evs hco] at h ⊢
      dsimp only at h hst ⊢
      rw [ih c2 h, hst rfl]
      simp [createdObjects, List.filterMap_append]

theorem Get_withObjects_append (c : RemoteClient) (gvk : GroupVersionKind) (key : ObjectKey)
    (u : Unstructured) (extra : List Unstructured) (h : c.Get gvk key = .ok u) :
    (c.withObjects (c.objects ++ extra)).Get gvk key = .ok u := by
  unfold RemoteClient.Get at h ⊢
  unfold RemoteClient.withObjects
  dsimp only
  cases hge : c.getErr gvk key with
  | some msg => simp [hge] at h
  | none =>
    simp only [hge] at h ⊢
    cases hf : c.objects.find? (sameIdentity gvk key) with
    | none => simp [hf] at h
    | some x =>
      simp only [hf, Except.ok.injEq] at h
      simp [List.find?_append, hf, h]

theorem Get_after_Create (c c2 : RemoteClient) (o : Unstructured) (e : GoError)
    (hg : c.Get o.gvk o.key = .error e) (hnf : IsNotFound e = true) (hcr : c.Create o = .ok c2) :
    c2.Get o.gvk o.key = .ok o := by
  rw [Create_ok_eq c c2 o hcr]
  unfold RemoteClient.Get at hg ⊢
  unfold RemoteClient.withObjects
  dsimp only
  cases hge : c.getErr o.gvk o.key with
  | some msg => simp [hge, IsNotFound] at hg; subst hg; simp [IsNotFound] at hnf
  | none =>
    simp only [hge] at hg ⊢
    cases hf : c.objects.find? (sameIdentity o.gvk o.key) with
    | some x => simp [hf] at hg
    | none =>
      rw [List.find?_append, hf]
      simp [sameIdentity, Unstructured.key]

theorem createObject_then_found (c : RemoteClient) (o : Unstructured)
    (h : (createObject c o).2.2 = none) :
    ∃ u, (createObject c o).1.Get o.gvk o.key = .ok u := by
  cases hg : c.Get o.gvk o.key with
  | ok u =>
    rw [createObject_found c o u hg]
    exact ⟨u, hg⟩
  | error e =>
    cases hnf : IsNotFound e with
    | false =>
      rw [createObject_read_error c o e hg hnf] at h
      simp at h
    | true =>
      cases hcr : c.Create o with
      | error e2 =>
        rw [createObject_create_error c o e e2 hg hnf hcr] at h
        simp at h
      | ok c2 =>
        rw [createObject_created c c2 o e hg hnf hcr]
        exact ⟨o, Get_after_Create c c2 o e hg hnf hcr⟩

/-- After an apply that returns no error, every object of the list is found
by a read of its identity. -/
theorem applyObjects_then_found (objs : List Unstructured) :
    ∀ c : RemoteClient, (applyObjects c objs).err = none →
      ∀ o ∈ objs, ∃ u, (c.withObjects (applyObjects c objs).objects).Get o.gvk o.key = .ok u := by
  induction objs with
  | nil => intro c _ o ho; simp at ho
  | cons x rest ih =>
    intro c h o ho
    have hst := (createObject_store c x).1
    have hfound := createObject_then_found c x
    rcases hco : createObject c x with ⟨c2, evs, e⟩
    rw [hco] at hst hfound
    dsimp only at hst hfound
    cases e with
    | some e =>
      rw [applyObjects_cons_err c c2 x rest evs e hco] at h
      simp at h
    | none =>
      rw [applyObjects_cons_ok c c2 x rest evs hco] at h ⊢
      dsimp only at h ⊢
      have hw : c.withObjects (applyObjects c2 rest).objects
          = c2.withObjects (applyObjects c2 rest).objects := by
        rw [hst]; rfl
      rw [hw]
      rcases List.mem_cons.mp ho with hx | hr
      · subst hx
        obtain ⟨u, hu⟩ := hfound rfl
        refine ⟨u, ?_⟩
        rw [applyObjects_objects rest c2 h]
        exact Get_withObjects_append c2 o.gvk o.key u _ hu
      · exact ih c2 h o hr

/-- An apply over a store in which every object of the list is found only
reads. -/
theorem applyObjects_all_found (objs : List Unstructured) (c : RemoteClient)
    (h : ∀ o ∈ objs, ∃ u, c.Get o.gvk o.key = .ok u) :
    applyObjects c objs = ⟨c.objects, objs.map (fun o => .remoteGet o.gvk o.key), none⟩ := by
  induction objs with
  | nil => rfl
  | cons x rest ih =>
    obtain ⟨u, hu⟩ := h x (List.mem_cons_self _ _)
    rw [applyObjects_cons_ok c c x rest _ (createObject_found c x u hu),
      ih (fun o ho => h o (List.mem_cons_of_mem _ ho))]
    rfl

theorem createdObjects_reads (objs : List Unstructured) :
    createdObjects (objs.map (fun o => Event.remoteGet o.gvk o.key)) = [] := by
  unfold createdObjects
  rw [List.filterMap_eq_nil_iff]
  intro ev hev
  obtain ⟨o, _, rfl⟩ := List.mem_map.mp hev
  rfl

theorem Get_ok_find (c : RemoteClient) (gvk : GroupVersionKind) (key : ObjectKey) (u : Unstructured)
    (h : c.Get gvk key = .ok u) : c.objects.find? (sameIdentity gvk key) = some u := by
  unfold RemoteClient.Get at h
  cases hge : c.getErr gvk key with
  | some msg => simp [hge] at h
  | none =>
    simp only [hge] at h
    cases hf : c.objects.find? (sameIdentity gvk key) with
    | none => simp [hf] at h
    | some x => simpa [hf] using h

/-- A read of a stored identity either finds the object or fails with an error
other than NotFound. -/
theorem Get_of_find (c : RemoteClient) (gvk : GroupVersionKind) (key : ObjectKey) (u : Unstructured)
    (h : c.objects.find? (sameIdentity gvk key) = some u) :
    c.Get gvk key = .ok u ∨ ∃ e, c.Get gvk key = .error e ∧ IsNotFound e = false := by
  unfold RemoteClient.Get
  cases hge : c.getErr gvk key with
  | some msg => exact Or.inr ⟨.other msg, rfl, rfl⟩
  | none => simp [h]

/-- An apply over a store that holds every object of the list issues no
Create and leaves the store as it is, whichever of its reads fail. -/
theorem applyObjects_all_stored (objs : List Unstructured) (c : RemoteClient)
    (h : ∀ o ∈ objs, ∃ u, c.objects.find? (sameIdentity o.gvk o.key) = some u) :
    createdObjects (applyObjects c objs).events = [] ∧ (applyObjects c objs).objects = c.objects := by
  induction objs with
  | nil => exact ⟨rfl, rfl⟩
  | cons x rest ih =>
    obtain ⟨u, hu⟩ := h x (List.mem_cons_self _ _)
    have ih2 := ih (fun o ho => h o (List.mem_cons_of_mem _ ho))
    rcases Get_of_find c x.gvk x.key u hu with hg | ⟨e, hg, hnf⟩
    · rw [applyObjects_cons_ok c c x rest _ (createObject_found c x u hg)]
      exact ⟨by simpa [createdObjects] using ih2.1, ih2.2⟩
    · rw [applyObjects_cons_err c c x rest _ _ (createObject_read_error c x e hg hnf)]
      exact ⟨rfl, rfl⟩

/-- C4. When a first apply of a list of decoded objects returns no error,
applying the same list again through any client over the store the first apply
left issues no Create call and leaves the remote object set as it was after
the first apply; through the same client it also returns no error. -/
theorem applyObjects_idempotent (c c2 : RemoteClient) (objs : List Unstructured)
    (h : (applyObjects c objs).err = none)
    (hstore : c2.objects = (applyObjects c objs).objects) :
    createdObjects (applyObjects c2 objs).events = [] ∧
    (applyObjects c2 objs).objects = (applyObjects c objs).objects ∧
    (applyObjects (c.withObjects (applyObjects c objs).objects) objs).err = none := by
  have hfound := applyObjects_then_found objs c h
  have hstored : ∀ o ∈ objs, ∃ u, c2.objects.find? (sameIdentity o.gvk o.key) = some u := by
    intro o ho
    obtain ⟨u, hu⟩ := hfound o ho
    exact ⟨u, by rw [hstore]; exact Get_ok_find _ _ _ u hu⟩
  have h2 := applyObjects_all_stored objs c2 hstored
  refine ⟨h2.1, by rw [h2.2, hstore], ?_⟩
  rw [applyObjects_all_found objs _ hfound]

/-- C4 at a sample input: four objects, one of them stored beforehand and one
repeated; the second apply creates nothing. -/
theorem applyObjects_idempotent_witness :
    (applyObjects (plainRemote [objB]) [objA, objB, objC, objA]).err = none ∧
    (applyObjects (plainRemote [objB]) [objA, objB, objC, objA]).objects = [objB, objA, objC] ∧
    createdObjects (applyObjects (plainRemote [objB, objA, objC]) [objA, objB, objC, objA]).events = [] ∧
    (applyObjects (plainRemote [objB, objA, objC]) [objA, objB, objC, objA]).objects
      = (applyObjects (plainRemote [objB]) [objA, objB, objC, objA]).objects :=
  ⟨by decide, by decide,
    (applyObjects_idempotent (plainRemote [objB]) (plainRemote [objB, objA, objC])
      [objA, objB, objC, objA] (by decide) (by decide)).1,
    (applyObjects_idempotent (plainRemote [objB]) (plainRemote [objB, objA, objC])
      [objA, objB, objC, objA] (by decide) (by decide)).2.1⟩

/-- C7. The applier handles the objects in list order. Let the objects before
`o` have been applied without error, leaving the client `c1` (the initial
store followed by the objects created so far). Then: if the read of `o` by
(kind, namespace, name) succeeds, the only call for `o` is that read and the
apply goes on over the unchanged store; if the read returns NotFound and the
Create succeeds, the calls for `o` are the read and one Create, and the apply
goes on over the store with `o` added; if the read fails otherwise, or the
Create fails, the apply returns that error (wrapped), makes no call for any
later object, and leaves the store `c1`, with everything created so far. -/
theorem applyObjects_in_order (c c1 : RemoteClient) (pre post : List Unstructured) (o : Unstructured)
    (hpre : (applyObjects c pre).err = none)
    (hc1 : c1 = c.withObjects (applyObjects c pre).objects) :
    c1.objects = c.objects ++ createdObjects (applyObjects c pre).events ∧
    (∀ u, c1.Get o.gvk o.key = .ok u →
      applyObjects c (pre ++ o :: post) =
        ⟨(applyObjects c1 post).objects,
          (applyObjects c pre).events ++ .remoteGet o.gvk o.key :: (applyObjects c1 post).events,
          (applyObjects c1 post).err⟩) ∧
    (∀ e c2, c1.Get o.gvk o.key = .error e → IsNotFound e = true → c1.Create o = .ok c2 →
      c2.objects = c1.objects ++ [o] ∧
      applyObjects c (pre ++ o :: post) =
        ⟨(applyObjects c2 post).objects,
          (applyObjects c pre).events
            ++ .remoteGet o.gvk o.key :: .remoteCreate o :: (applyObjects c2 post).events,
          (applyObjects c2 post).err⟩) ∧
    (∀ e, c1.Get o.gvk o.key = .error e → IsNotFound e = false →
      applyObjects c (pre ++ o :: post) =
        ⟨c1.objects, (applyObjects c pre).events ++ [.remoteGet o.gvk o.key],
          some (.wrap "getting object from remote cluster" e)⟩) ∧
    (∀ e e2, c1.Get o.gvk o.key = .error e → IsNotFound e = true → c1.Create o = .error e2 →
      applyObjects c (pre ++ o :: post) =
        ⟨c1.objects, (applyObjects c pre).events ++ [.remoteGet o.gvk o.key, .remoteCreate o],
          some (.wrap "creating object in remote cluster" e2)⟩) := by
  have happ := applyObjects_append pre (o :: post) c hpre
  rw [← hc1] at happ
  refine ⟨?_, ?_, ?_, ?_, ?_⟩
  · rw [hc1]
    exact applyObjects_objects pre c hpre
  · intro u hu
    rw [happ, applyObjects_cons_ok c1 c1 o post _ (createObject_found c1 o u hu)]
    rfl
  · intro e c2 hg hnf hcr
    refine ⟨by rw [Create_ok_eq c1 c2 o hcr]; rfl, ?_⟩
    rw [happ, applyObjects_cons_ok c1 c2 o post _ (createObject_created c1 c2 o e hg hnf hcr)]
    rfl
  · intro e hg hnf
    rw [happ, applyObjects_cons_err c1 c1 o post _ _ (createObject_read_error c1 o e hg hnf)]
  · intro e e2 hg hnf hcr
    rw [happ, applyObjects_cons_err c1 c1 o post _ _ (createObject_create_error c1 o e e2 hg hnf hcr)]

/-- C7 at a sample input: `objB` is stored beforehand, so it is read and skipped
between the creation of `objA` and of `objC`. -/
theorem applyObjects_in_order_witness :
    (applyObjects (plainRemote [objB]) [objA]).err = none ∧
    ((plainRemote [objB]).withObjects (applyObjects (plainRemote [objB]) [objA]).objects).Get
      objB.gvk objB.key = .ok objB ∧
    applyObjects (plainRemote [objB]) ([objA] ++ objB :: [objC]) =
      ⟨[objB, objA, objC],
        [.remoteGet objA.gvk objA.key, .remoteCreate objA, .remoteGet objB.gvk objB.key,
          .remoteGet objC.gvk objC.key, .remoteCreate objC], none⟩ :=
  ⟨by decide, by decide, by
    have h := (applyObjects_in_order (plainRemote [objB])
      ((plainRemote [objB]).withObjects (applyObjects (plainRemote [objB]) [objA]).objects)
      [objA] [objC] objB (by decide) rfl).2.1 objB (by decide)
    rw [h]; decide⟩

theorem lookup_isSome_iff (m : List (String × String)) (k : String) :
    (m.lookup k).isSome = true ↔ ∃ v, (k, v) ∈ m := by
  induction m with
  | nil => simp
  | cons kv rest ih =>
    rcases kv with ⟨a, b⟩
    by_cases hk : k = a
    · subst hk
      simp [List.lookup]
    · have hne : (k == a) = false := by simpa using hk
      simp only [List.lookup, hne, ih, List.mem_cons, Prod.mk.injEq]
      constructor
      · rintro ⟨v, hv⟩; exact ⟨v, Or.inr hv⟩
      · rintro ⟨v, hv | hv⟩
        · exact absurd hv.1 hk
        · exact ⟨v, hv⟩

theorem HasAnnotation_iff (o : WatchedObject) (k : String) :
    HasAnnotation o k = true ↔ containsAnnotation o k := by
  unfold HasAnnotation containsAnnotation
  cases ha : o.Annotations with
  | none => simp
  | some m =>
    simp only [lookup_isSome_iff, Option.some.injEq]
    constructor
    · rintro ⟨v, hv⟩; exact ⟨m, v, rfl, hv⟩
    · rintro ⟨m2, v, hm, hv⟩; exact ⟨v, hm ▸ hv⟩

theorem processIfClusterNotImported_iff (k : String) (o : WatchedObject) :
    processIfClusterNotImported k o = true ↔ ¬ containsAnnotation o k := by
  unfold processIfClusterNotImported
  rw [← HasAnnotation_iff]
  cases HasAnnotation o k <;> simp

/-- C11. For every object and each of the four event kinds (create, update,
delete, generic), the predicate returned by `ClusterWithoutImportedAnnotation`
returns true if and only if the object of the event (the new object for an
update, whatever the old one) does not contain the ClusterImportedAnnotation
annotation; an object with a nil annotation map, with an empty annotation map,
or with other annotations only, yields true for all four kinds. -/
theorem ClusterWithoutImportedAnnotation_iff ( ClusterImportedAnnotation : String)
    (obj old : WatchedObject) (unknown : Bool) :
    (( ClusterWithoutImportedAnnotation ClusterImportedAnnotation).CreateFunc ⟨obj⟩ = true
      ↔ ¬ containsAnnotation obj ClusterImportedAnnotation) ∧
    (( ClusterWithoutImportedAnnotation ClusterImportedAnnotation).UpdateFunc ⟨old, obj⟩ = true
      ↔ ¬ containsAnnotation obj ClusterImportedAnnotation) ∧
    (( ClusterWithoutImportedAnnotation ClusterImportedAnnotation).DeleteFunc ⟨obj, unknown⟩ = true
      ↔ ¬ containsAnnotation obj ClusterImportedAnnotation) ∧
    (( ClusterWithoutImportedAnnotation ClusterImportedAnnotation).GenericFunc ⟨obj⟩ = true
      ↔ ¬ containsAnnotation obj ClusterImportedAnnotation) ∧
    ((obj.Annotations = none ∨ obj.Annotations = some [] ∨
        ∃ m, obj.Annotations = some m ∧ ∀ kv ∈ m, kv.1 ≠ ClusterImportedAnnotation) →
      ( ClusterWithoutImportedAnnotation ClusterImportedAnnotation).CreateFunc ⟨obj⟩ = true ∧
      ( ClusterWithoutImportedAnnotation ClusterImportedAnnotation).UpdateFunc ⟨old, obj⟩ = true ∧
      ( ClusterWithoutImportedAnnotation ClusterImportedAnnotation).DeleteFunc ⟨obj, unknown⟩ = true ∧
      ( ClusterWithoutImportedAnnotation ClusterImportedAnnotation).GenericFunc ⟨obj⟩ = true) := by
  have h := processIfClusterNotImported_iff ClusterImportedAnnotation obj
  refine ⟨h, h, h, h, ?_⟩
  intro hmap
  have hno : ¬ containsAnnotation obj ClusterImportedAnnotation := by
    rintro ⟨m, v, hm, hv⟩
    rcases hmap with hn | he | ⟨m2, hm2, hall⟩
    · rw [hn] at hm; cases hm
    · rw [he] at hm; cases hm; cases hv
    · rw [hm2] at hm; cases hm
      exact hall _ hv rfl
  exact ⟨h.mpr hno, h.mpr hno, h.mpr hno, h.mpr hno⟩

/-- C11 at the inputs of the tests: the cluster that carries the annotation is
filtered out on update, the clusters with a nil and with an empty annotation
map pass. -/
theorem ClusterWithoutImportedAnnotation_iff_witness :
    containsAnnotation (testClusterImported "imported") "imported" ∧
    ¬ (( ClusterWithoutImportedAnnotation "imported").UpdateFunc
        ⟨testClusterNoAnnotations, testClusterImported "imported"⟩ = true) ∧
    testClusterNoAnnotations.Annotations = none ∧
    ( ClusterWithoutImportedAnnotation "imported").UpdateFunc
      ⟨testClusterImported "imported", testClusterNoAnnotations⟩ = true ∧
    testClusterEmptyAnnotations.Annotations = some [] ∧
    ( ClusterWithoutImportedAnnotation "imported").UpdateFunc
      ⟨testClusterImported "imported", testClusterEmptyAnnotations⟩ = true ∧
    ( ClusterWithoutImportedAnnotation "imported").CreateFunc ⟨ testClusterOtherAnnotation⟩ = true :=
  have hc : containsAnnotation (testClusterImported "imported") "imported" :=
    ⟨[("imported", "true")], "true", rfl, List.mem_singleton.mpr rfl⟩
  ⟨hc,
    fun h => (ClusterWithoutImportedAnnotation_iff "imported" (testClusterImported "imported")
      testClusterNoAnnotations false).2.1.mp h hc,
    rfl,
    ((ClusterWithoutImportedAnnotation_iff "imported" testClusterNoAnnotations
      (testClusterImported "imported") false).2.2.2.2 (Or.inl rfl)).2.1,
    rfl,
    ((ClusterWithoutImportedAnnotation_iff "imported" testClusterEmptyAnnotations
      (testClusterImported "imported") false).2.2.2.2 (Or.inr (Or.inl rfl))).2.1,
    ((ClusterWithoutImportedAnnotation_iff "imported" testClusterOtherAnnotation
      testClusterNoAnnotations false).2.2.2.2
      (Or.inr (Or.inr ⟨[("some-random-annoation", "true")], rfl, by decide⟩))).1⟩

end Turtles
